import Mathlib

/-!
Verification of the tenant-server lifecycle orchestrator in
`pkg/server/server_controller_orchestration.go`.

The orchestrator is concurrent Go code.  We embed it shallowly:

* The idempotent `requestStop` closure of `startControlledServer` (lines
  211-215 of the source) is a pure function on a `StopTrigger` record that
  mirrors the `stoppedChClosed` atomic bool and counts how many times
  `close(stopRequestCh)` has actually executed.  Because the closure
  linearizes through an atomic swap, any concurrent execution of n calls is
  equivalent to some sequential execution of n calls, which is what we prove
  about.

* The body of the `managed-tenant-server` async task (lines 280-438) is
  embedded as a list of atomic actions `mainActs`, parameterized by the
  environment: the outcome of each server-creation attempt in the retry loop
  (`newServerInternal`/`preStart`/`acceptClients` failing with an error, or
  succeeding), and which branch of the final shutdown select fires.  An
  attempt list that ends without a success models the retry iterator being
  closed by the ctl-stopper quiesce (the abandoned-before-start path).
  `step` gives each action its effect on the observable lifecycle state
  (`serverState` fields, the channels, registry membership), and `allSt` /
  `anySt` quantify a predicate over every intermediate state of the
  execution, which lets us state ordering facts such as "whenever `stopped`
  is observed closed, `startedOrStopped` is already closed".

* The `propagate-close` task (lines 240-271) and the nested
  `propagate-close-tenant` task (lines 334-368) are embedded as functions
  from the select branch that fires (and the content of the buffered
  `useGracefulDrainDuringTenantShutdown` channel) to their effects; composing
  them gives the graceful-drain decision.

* `scanTenantsForRunnableServices`, `createServerEntryLocked`,
  `startAndWaitForRunningServer`, `Close` and `drain` are embedded over an
  association-list registry mirroring the mutex-guarded `c.mu.servers` map.
-/

namespace ServerCtl

/-- Outcome of one iteration of the retry loop in `startControlledServer`:
either the `newServerInternal`/`preStart`/`acceptClients` sequence fails with
an error (the `if err != nil` branch at line 392) or it succeeds. -/
inductive AttemptResult where
  | fail (e : String)
  | success
deriving DecidableEq

/-- State backing the `requestStop` closure of `startControlledServer`:
`stoppedChClosed` is the atomic bool swapped by the closure, and
`closeCount` counts how many times `close(stopRequestCh)` has executed.  A Go
`close` on an already-closed channel panics, so `closeCount ≤ 1` is what
"no duplicate-close panic" means. -/
structure StopTrigger where
  stoppedChClosed : Bool
  closeCount : Nat
deriving DecidableEq

/-- The `requestStop` closure (source lines 211-215): swap the atomic bool;
only the call that observes `false` closes the stop-request channel. -/
def requestStop (t : StopTrigger) : StopTrigger :=
  if t.stoppedChClosed then t
  else { stoppedChClosed := true, closeCount := t.closeCount + 1 }

/-- Observable lifecycle state of one `serverEntry`: the `serverState`
fields, the two completion channels, and whether the entry is still in the
controller's `c.mu.servers` map. -/
structure LState where
  /-- state of the stop-request trigger (`stoppedChClosed` + `stopRequestCh`). -/
  trigger : StopTrigger
  /-- the `started` atomic bool of `serverState`. -/
  started : Bool
  /-- the `startErr` field of `serverState`. -/
  startErr : Option String
  /-- whether `startedOrStoppedCh` has been closed. -/
  sosClosed : Bool
  /-- how many times `close(startedOrStoppedCh)` has executed. -/
  sosCloseCount : Nat
  /-- whether `stoppedCh` has been closed. -/
  stoppedClosed : Bool
  /-- whether the entry is still present in `c.mu.servers`. -/
  inRegistry : Bool
  /-- whether `entry.server` has been assigned the live tenant server. -/
  serverSet : Bool
deriving DecidableEq

/-- Initial state right after `createServerEntryLocked` has inserted the
fresh entry into the map: nothing closed, nothing started, entry registered.
(The deferred delete cannot run before the insert because both require
`c.mu`, which the creating caller holds through the insert.) -/
def init0 : LState :=
  { trigger := { stoppedChClosed := false, closeCount := 0 }
    started := false
    startErr := none
    sosClosed := false
    sosCloseCount := 0
    stoppedClosed := false
    inRegistry := true
    serverSet := false }

/-- Atomic actions performed by the `managed-tenant-server` task body, in
source order. -/
inductive Act where
  /-- `entry.state.startErr = err` in the retry loop (line 401). -/
  | setStartErr (e : String)
  /-- `entry.state.startErr = errors.New("server stop before successful start")`
  in the deferred cleanup (line 293). -/
  | setAbandonErr
  /-- a call to `entry.state.requestStop()` (lines 289 and 437). -/
  | requestStopCall
  /-- `entry.server = tenantServer` (line 423). -/
  | setServer
  /-- `entry.state.started.Set(true)` (line 425). -/
  | setStartedTrue
  /-- `entry.state.started.Set(false)` in the deferred cleanup (line 290). -/
  | setStartedFalse
  /-- `close(startedOrStoppedCh)` (lines 426 and 294). -/
  | closeSOS
  /-- `close(stoppedCh)` in the deferred cleanup (line 291). -/
  | closeStopped
  /-- `delete(c.mu.servers, tenantName)` in the deferred cleanup (line 300). -/
  | deleteEntry
deriving DecidableEq

/-- Effect of one atomic action on the lifecycle state. -/
def step (s : LState) : Act → LState
  | .setStartErr e => { s with startErr := some e }
  | .setAbandonErr => { s with startErr := some "server stop before successful start" }
  | .requestStopCall => { s with trigger := requestStop s.trigger }
  | .setServer => { s with serverSet := true }
  | .setStartedTrue => { s with started := true }
  | .setStartedFalse => { s with started := false }
  | .closeSOS => { s with sosClosed := true, sosCloseCount := s.sosCloseCount + 1 }
  | .closeStopped => { s with stoppedClosed := true }
  | .deleteEntry => { s with inRegistry := false }

/-- Actions of the retry loop (lines 330-406): each failing attempt records
its error into `startErr` and continues; the first success leaves the loop.
A list that ends without a success models the retry iterator closing
(ctl-stopper quiesce) before any server was produced. -/
def retryActs : List AttemptResult → List Act
  | [] => []
  | .fail e :: rest => .setStartErr e :: retryActs rest
  | .success :: _ => []

/-- Whether the retry loop exits with `tenantServer != nil` (line 407). -/
def serverObtained : List AttemptResult → Bool
  | [] => false
  | .fail _ :: rest => serverObtained rest
  | .success :: _ => true

/-- Number of attempts consumed when the loop resolves; on success this is
the value of `retry.CurrentAttempt()` at the succeeding iteration. -/
def attemptsUsed : List AttemptResult → Nat
  | [] => 0
  | .fail _ :: rest => attemptsUsed rest + 1
  | .success :: _ => 1

/-- Which branch of the post-start shutdown select (lines 429-438) fires. -/
inductive PostStart where
  /-- `<-tenantStopper.ShouldQuiesce()`: stop already propagating. -/
  | tenantQuiesce
  /-- `<-tenantServer.shutdownRequested()`: the tenant server asks to shut
  down; the loop reacts by calling `entry.state.requestStop()` (line 437). -/
  | shutdownReq
deriving DecidableEq

/-- Actions of the post-start shutdown select. -/
def postActs : PostStart → List Act
  | .tenantQuiesce => []
  | .shutdownReq => [.requestStopCall]

/-- Actions of the deferred cleanup (lines 282-301).  `alreadyClosed` is the
`startedOrStoppedChAlreadyClosed` local, set exactly when the success path
closed the channel at line 426. -/
def deferActs (alreadyClosed : Bool) : List Act :=
  [.requestStopCall, .setStartedFalse, .closeStopped] ++
    (if alreadyClosed then [] else [.setAbandonErr, .closeSOS]) ++ [.deleteEntry]

/-- Full action sequence of the `managed-tenant-server` task body: the retry
loop, then (on success) publishing the server, marking started, closing
`startedOrStoppedCh` and running the shutdown select, then the deferred
cleanup. -/
def mainActs (attempts : List AttemptResult) (ps : PostStart) : List Act :=
  retryActs attempts ++
    (if serverObtained attempts then
      [.setServer, .setStartedTrue, .closeSOS] ++ postActs ps
    else []) ++
    deferActs (serverObtained attempts)

/-- Run a list of actions from a state. -/
def run (s : LState) (l : List Act) : LState := l.foldl step s

/-- Whether `p` holds at the initial state and after every action: a
step-indexed invariant of the execution. -/
def allSt (p : LState → Bool) : LState → List Act → Bool
  | s, [] => p s
  | s, a :: l => p s && allSt p (step s a) l

/-- Whether `p` holds at some state reached during the execution. -/
def anySt (p : LState → Bool) : LState → List Act → Bool
  | s, [] => p s
  | s, a :: l => p s || anySt p (step s a) l

/-- Which branch of the `propagate-close` task select (lines 241-271) fires
first. -/
inductive CloseSource where
  /-- `<-stoppedCh`: the control loop terminated on its own first. -/
  | stoppedEarly
  /-- `<-c.stopper.ShouldQuiesce()`: the surrounding server is stopping. -/
  | outerQuiesce
  /-- `<-stopRequestCh`: someone invoked `requestStop`. -/
  | stopRequest
  /-- `<-topCtx.Done()`: the original spawn context was cancelled. -/
  | ctxCancel
deriving DecidableEq

/-- Effect of the `propagate-close` task: the value it sends into the
buffered `useGracefulDrainDuringTenantShutdown` channel (if any) and whether
it calls `ctlStopper.Stop`. -/
structure PropagateCloseEffect where
  gracefulSent : Option Bool
  ctlStopped : Bool
deriving DecidableEq

/-- The `propagate-close` task body (lines 241-271): only the
`stopRequestCh` branch sends `true`; the outer-quiesce and
context-cancellation branches send `false`; a premature control-loop
termination sends nothing and stops nothing. -/
def propagateClose : CloseSource → PropagateCloseEffect
  | .stoppedEarly => { gracefulSent := none, ctlStopped := false }
  | .outerQuiesce => { gracefulSent := some false, ctlStopped := true }
  | .stopRequest => { gracefulSent := some true, ctlStopped := true }
  | .ctxCancel => { gracefulSent := some false, ctlStopped := true }

/-- Which branch of the `propagate-close-tenant` task select (lines 335-368)
fires first. -/
inductive TenantCloseBranch where
  /-- `<-tenantStopper.ShouldQuiesce()`: tenant stopping on its own. -/
  | tenantQuiesce
  /-- `<-ctlStopper.ShouldQuiesce()`: the control stopper quiesced. -/
  | ctlQuiesce
  /-- `<-c.stopper.ShouldQuiesce()`: expedited shutdown of the KV node. -/
  | outerQuiesce
deriving DecidableEq

/-- The graceful-drain decision of the `propagate-close-tenant` task body:
only the ctl-quiesce branch consults the buffered channel (with a `default`
case when it is empty), and `CallDrainServerSide` runs only when the value
read is `true`. -/
def propagateCloseTenant (branch : TenantCloseBranch) (chan : Option Bool) : Bool :=
  match branch, chan with
  | .ctlQuiesce, some g => g
  | _, _ => false

/-- Whether a graceful drain of the tenant server is attempted, given which
`propagate-close` branch fired and which `propagate-close-tenant` branch
fired: the composition of the two tasks through the buffered channel. -/
def drainAttempted (src : CloseSource) (branch : TenantCloseBranch) : Bool :=
  propagateCloseTenant branch (propagateClose src).gracefulSent

/-- Membership in the `nameLookup` set built by
`scanTenantsForRunnableServices` (lines 153-156). -/
def memN : List String → String → Bool
  | [], _ => false
  | m :: rest, n => if m = n then true else memN rest n

/-- Lookup in the `c.mu.servers` map, modelled as an association list. -/
def lookupT : List (String × StopTrigger) → String → Option StopTrigger
  | [], _ => none
  | (k, v) :: rest, n => if n = k then some v else lookupT rest n

/-- First loop of `scanTenantsForRunnableServices` (lines 163-169): request
stop on every registered server whose name is not in the desired set. -/
def scanStopPhase (nameLookup : List String) :
    List (String × StopTrigger) → List (String × StopTrigger)
  | [] => []
  | (n, t) :: rest =>
    (n, if memN nameLookup n then t else requestStop t) :: scanStopPhase nameLookup rest

/-- The stop-trigger component of a freshly created `serverEntry`
(lines 203-218): atomic bool false, stop-request channel not closed. -/
def freshEntry : StopTrigger := { stoppedChClosed := false, closeCount := 0 }

/-- Result of `createServerEntryLocked`: the returned error if any, the
updated `c.mu.servers` map, and whether a control loop was spawned. -/
structure CreateResult where
  err : Option String
  servers : List (String × StopTrigger)
  spawned : Bool
deriving DecidableEq

/-- `createServerEntryLocked` (lines 184-196): refuse immediately while the
outer node is draining; otherwise spawn the control loop via
`startControlledServer` and insert the new entry into the map.  (The model
assumes the two `RunAsyncTask` spawns succeed; their failure path returns an
error without inserting.) -/
def createServerEntryLocked (draining : Bool) (servers : List (String × StopTrigger))
    (name : String) : CreateResult :=
  if draining then { err := some "server is draining", servers := servers, spawned := false }
  else { err := none, servers := servers ++ [(name, freshEntry)], spawned := true }

/-- Second loop of `scanTenantsForRunnableServices` (lines 172-180): create
an entry for every desired tenant missing from the map; an error from
`createServerEntryLocked` aborts the scan. -/
def scanCreatePhase (draining : Bool) :
    List String → List (String × StopTrigger) → Option String × List (String × StopTrigger)
  | [], m => (none, m)
  | n :: rest, m =>
    if (lookupT m n).isSome then scanCreatePhase draining rest m
    else
      let r := createServerEntryLocked draining m n
      match r.err with
      | some e => (some e, r.servers)
      | none => scanCreatePhase draining rest r.servers

/-- One pass of `scanTenantsForRunnableServices` (lines 143-182), given the
desired tenant list `reqTenants` returned by `getExpectedRunningTenants`:
stop phase then create phase, all under `c.mu`. -/
def scanTenantsForRunnableServices (draining : Bool) (reqTenants : List String)
    (servers : List (String × StopTrigger)) : Option String × List (String × StopTrigger) :=
  scanCreatePhase draining reqTenants (scanStopPhase reqTenants servers)

/-- Snapshot of one `serverEntry` as seen by `requestStopAll`, `Close` and
`drain`: its stop trigger and whether its `stopped` channel is closed. -/
structure EntrySnap where
  trigger : StopTrigger
  stoppedClosed : Bool
deriving DecidableEq

/-- `requestStopAll` (lines 550-566): snapshot the entries under the lock,
then call `requestStop` on each outside the lock. -/
def requestStopAll (entries : List EntrySnap) : List EntrySnap :=
  entries.map fun e => { e with trigger := requestStop e.trigger }

/-- The condition under which `Close` (lines 526-533) returns: it has
requested stop on every snapshot entry and each `<-e.state.stopped` receive
has unblocked, i.e. every snapshot entry's `stopped` channel is closed. -/
def closeReturned (entries : List EntrySnap) : Bool :=
  (requestStopAll entries).all fun e => e.stoppedClosed

/-- `drain` (lines 535-548): request stop on all snapshot entries, then
count, via a non-blocking select, the entries whose `stopped` channel has
not fired yet. -/
def drain (entries : List EntrySnap) : Nat :=
  (requestStopAll entries).countP fun e => !e.stoppedClosed

/-- Project the entry snapshot out of a lifecycle state. -/
def snapOf (s : LState) : EntrySnap :=
  { trigger := s.trigger, stoppedClosed := s.stoppedClosed }

/-- The fields of a `serverEntry` read by `startAndWaitForRunningServer`:
`entry.server` (an abstract identifier) and `entry.state.startErr`. -/
structure EntryView where
  server : Option Nat
  startErr : Option String
deriving DecidableEq

/-- Which of the three channels of the `startAndWaitForRunningServer` select
(lines 499-506) fires first. -/
inductive WaitFirst where
  /-- `<-entry.state.startedOrStopped`. -/
  | sosFired
  /-- `<-c.stopper.ShouldQuiesce()`. -/
  | outerQuiesce
  /-- `<-ctx.Done()`; the context error is passed in as `ctxErr`. -/
  | ctxDone
deriving DecidableEq

/-- The blocking select of `startAndWaitForRunningServer` (lines 499-506):
on start resolution return `entry.server` with `entry.state.startErr`, on
outer quiesce a "server stopping" error, on context cancellation the
context's error. -/
def startAndWaitForRunningServer (e : EntryView) (ctxErr : String) :
    WaitFirst → Option Nat × Option String
  | .sosFired => (e.server, e.startErr)
  | .outerQuiesce => (none, some "server stopping")
  | .ctxDone => (none, some ctxErr)

/-! ### Execution lemmas -/

/-- Running an appended action list is running the pieces in turn. -/
theorem run_append (s : LState) (l1 l2 : List Act) :
    run s (l1 ++ l2) = run (run s l1) l2 := by
  simp [run, List.foldl_append]

/-- Running no actions is the identity. -/
theorem run_nil (s : LState) : run s [] = s := rfl

/-- Unfolding one action of a run. -/
theorem run_cons (s : LState) (a : Act) (l : List Act) :
    run s (a :: l) = run (step s a) l := rfl

/-- `allSt` always includes the predicate at its start state. -/
theorem allSt_self (p : LState → Bool) (s : LState) (l : List Act) :
    allSt p s l = (p s && allSt p s l) := by
  cases l with
  | nil => simp [allSt]
  | cons a l => cases h : p s <;> simp [allSt, h]

/-- Splitting `allSt` across an append. -/
theorem allSt_append (p : LState → Bool) (s : LState) (l1 l2 : List Act) :
    allSt p s (l1 ++ l2) = (allSt p s l1 && allSt p (run s l1) l2) := by
  induction l1 generalizing s with
  | nil =>
    simp only [List.nil_append, allSt, run, List.foldl_nil]
    exact allSt_self p s l2
  | cons a l ih =>
    simp only [List.cons_append, allSt, List.append_eq, ih, run, List.foldl_cons,
      Bool.and_assoc]

/-- `anySt` always includes the predicate at its start state. -/
theorem anySt_self (p : LState → Bool) (s : LState) (l : List Act) :
    anySt p s l = (p s || anySt p s l) := by
  cases l with
  | nil => simp [anySt]
  | cons a l => cases h : p s <;> simp [anySt, h]

/-- Splitting `anySt` across an append. -/
theorem anySt_append (p : LState → Bool) (s : LState) (l1 l2 : List Act) :
    anySt p s (l1 ++ l2) = (anySt p s l1 || anySt p (run s l1) l2) := by
  induction l1 generalizing s with
  | nil =>
    simp only [List.nil_append, anySt, run, List.foldl_nil]
    exact anySt_self p s l2
  | cons a l ih =>
    simp only [List.cons_append, anySt, List.append_eq, ih, run, List.foldl_cons,
      Bool.or_assoc]

/-- Accumulated `startErr` value after the retry loop: the error of the last
failing attempt before the loop resolved, if any. -/
def retryErr : List AttemptResult → Option String → Option String
  | [], e => e
  | .fail err :: rest, _ => retryErr rest (some err)
  | .success :: _, e => e

/-- The retry-loop actions only rewrite `startErr`. -/
theorem run_retryActs (as : List AttemptResult) (s : LState) :
    run s (retryActs as) = { s with startErr := retryErr as s.startErr } := by
  induction as generalizing s with
  | nil => simp [retryActs, retryErr, run]
  | cons a rest ih =>
    cases a with
    | fail e =>
      simp only [retryActs, retryErr, run, List.foldl_cons, step]
      exact ih { s with startErr := some e }
    | success => simp [retryActs, retryErr, run]

/-- A predicate that ignores `startErr` is constant across the retry loop. -/
theorem allSt_retryActs (p : LState → Bool)
    (hp : ∀ (s : LState) (e : Option String), p { s with startErr := e } = p s)
    (as : List AttemptResult) (s : LState) : allSt p s (retryActs as) = p s := by
  induction as generalizing s with
  | nil => rfl
  | cons a rest ih =>
    cases a with
    | fail e =>
      simp only [retryActs, allSt, step, ih, hp]
      cases p s <;> rfl
    | success => rfl

/-- A predicate that ignores `startErr` is witnessed along the retry loop
iff it holds at its start. -/
theorem anySt_retryActs (p : LState → Bool)
    (hp : ∀ (s : LState) (e : Option String), p { s with startErr := e } = p s)
    (as : List AttemptResult) (s : LState) : anySt p s (retryActs as) = p s := by
  induction as generalizing s with
  | nil => rfl
  | cons a rest ih =>
    cases a with
    | fail e =>
      simp only [retryActs, anySt, step, ih, hp]
      cases p s <;> rfl
    | success => rfl

/-! ### Invariant predicates over lifecycle states -/

/-- Whenever `stopped` is observed closed, `startedOrStopped` is already
closed. -/
def sosBeforeStoppedB (s : LState) : Bool := !s.stoppedClosed || s.sosClosed

/-- `startedOrStopped` is closed while `stopped` is not yet: witnesses
strictness of the resolution order on the success path. -/
def sosNotStoppedB (s : LState) : Bool := s.sosClosed && !s.stoppedClosed

/-- Whenever `startedOrStopped` is observed closed, `stopped` is already
closed: the order that actually holds on the abandoned path. -/
def stoppedBeforeSosB (s : LState) : Bool := !s.sosClosed || s.stoppedClosed

/-- Whenever `stopped` is observed closed, `requestStop` has run (the atomic
bool is set and the stop-request channel has been closed) and `started` is
back to false. -/
def stoppedCleanupDoneB (s : LState) : Bool :=
  !s.stoppedClosed || (s.trigger.stoppedChClosed && (s.trigger.closeCount != 0) && !s.started)

/-- The entry leaves the registry only after its `stopped` channel closed. -/
def regUntilStoppedB (s : LState) : Bool := s.inRegistry || s.stoppedClosed

/-- The server is live and the stop-request channel has fired: the state the
control loop enters when the tenant server requests its own shutdown. -/
def runningStopRequestedB (s : LState) : Bool :=
  s.started && s.trigger.stoppedChClosed && (s.trigger.closeCount != 0)

/-! ### Claim theorems -/

/-- Claim C1, counterexample to the claim as stated: on the
abandoned-before-start path (retry loop closed before any attempt
succeeded), the deferred cleanup closes `stoppedCh` at line 291 before it
resolves `startedOrStoppedCh` at line 294, so the execution reaches a state
where `stopped` has fired while `startedOrStopped` has not resolved yet —
`startedOrStopped` does not resolve strictly before `stopped` on that
path. -/
theorem abandoned_path_stopped_closes_first :
    anySt (fun s => s.stoppedClosed && !s.sosClosed) init0
      (mainActs [] PostStart.tenantQuiesce) = true := by decide

/-- Claim C1 (amended): for every control-loop execution, `startedOrStopped`
is closed exactly once; on the successful-start path it resolves strictly
before `stopped` closes; on the abandoned-before-start path the deferred
cleanup closes `stopped` first and only then resolves `startedOrStopped`,
with the synthetic "server stop before successful start" error. -/
theorem startedOrStopped_resolution (attempts : List AttemptResult) (ps : PostStart) :
    (run init0 (mainActs attempts ps)).sosCloseCount = 1 ∧
    (serverObtained attempts = true →
      allSt sosBeforeStoppedB init0 (mainActs attempts ps) = true ∧
      anySt sosNotStoppedB init0 (mainActs attempts ps) = true) ∧
    (serverObtained attempts = false →
      allSt stoppedBeforeSosB init0 (mainActs attempts ps) = true ∧
      (run init0 (mainActs attempts ps)).startErr
        = some "server stop before successful start") := by
  have h1 : ∀ (s : LState) (e : Option String),
      sosBeforeStoppedB { s with startErr := e } = sosBeforeStoppedB s := fun _ _ => rfl
  have h2 : ∀ (s : LState) (e : Option String),
      sosNotStoppedB { s with startErr := e } = sosNotStoppedB s := fun _ _ => rfl
  have h3 : ∀ (s : LState) (e : Option String),
      stoppedBeforeSosB { s with startErr := e } = stoppedBeforeSosB s := fun _ _ => rfl
  cases hob : serverObtained attempts <;> cases ps <;>
    simp [mainActs, hob, allSt_append, anySt_append, run_append, run_retryActs,
      allSt_retryActs _ h1, allSt_retryActs _ h3, anySt_retryActs _ h2,
      deferActs, postActs, allSt, anySt, run_nil, run_cons, step, requestStop, init0,
      sosBeforeStoppedB, sosNotStoppedB, stoppedBeforeSosB]

/-- Claim C1, witness: instantiating the resolution-order theorem on a
first-attempt success and on an immediately abandoned start. -/
theorem startedOrStopped_resolution_witness :
    (allSt sosBeforeStoppedB init0
        (mainActs [AttemptResult.success] PostStart.tenantQuiesce) = true) ∧
    (allSt stoppedBeforeSosB init0 (mainActs [] PostStart.tenantQuiesce) = true) :=
  ⟨((startedOrStopped_resolution [AttemptResult.success] PostStart.tenantQuiesce).2.1 rfl).1,
   ((startedOrStopped_resolution [] PostStart.tenantQuiesce).2.2 rfl).1⟩

/-- Claim C10: on every exit path of the control loop, whenever the
`stopped` channel is observed closed, the deferred cleanup has already
invoked `requestStop` (so the atomic bool is set and the stop-request
channel has been closed, releasing the propagate-close task) and has already
set `started` back to false. -/
theorem stopped_implies_cleanup_ran (attempts : List AttemptResult) (ps : PostStart) :
    allSt stoppedCleanupDoneB init0 (mainActs attempts ps) = true := by
  have hp : ∀ (s : LState) (e : Option String),
      stoppedCleanupDoneB { s with startErr := e } = stoppedCleanupDoneB s := fun _ _ => rfl
  cases hob : serverObtained attempts <;> cases ps <;>
    simp [mainActs, hob, allSt_append, run_retryActs, allSt_retryActs _ hp,
      deferActs, postActs, allSt, run_nil, run_cons, step, requestStop, init0,
      stoppedCleanupDoneB]

/-- Claim C6, counterexample to the claim as stated: the deferred cleanup
closes `stoppedCh` (line 291) strictly before it deletes the entry from
`c.mu.servers` (line 300), so the execution reaches a state where the wait
condition of `Close` on this entry is already satisfied while the entry is
still in the registry map — `Close` can therefore return before the map is
empty. -/
theorem close_unblocked_while_entry_registered :
    anySt (fun s => closeReturned [snapOf s] && s.inRegistry) init0
      (mainActs [] PostStart.tenantQuiesce) = true := by decide

/-- Claim C6 (amended): when `Close` returns, every entry of its snapshot
has had its `stopped` signal fire; each entry is deleted from the registry
by its own control loop's cleanup only after `stopped` has closed, and once
every control loop's cleanup has run to completion the entry is gone and its
`stopped` signal has fired — but the deletion may happen after `Close` has
already returned. -/
theorem close_stop_then_delete (attempts : List AttemptResult) (ps : PostStart) :
    (run init0 (mainActs attempts ps)).stoppedClosed = true ∧
    (run init0 (mainActs attempts ps)).inRegistry = false ∧
    closeReturned [snapOf (run init0 (mainActs attempts ps))] = true ∧
    allSt regUntilStoppedB init0 (mainActs attempts ps) = true := by
  have hp : ∀ (s : LState) (e : Option String),
      regUntilStoppedB { s with startErr := e } = regUntilStoppedB s := fun _ _ => rfl
  cases hob : serverObtained attempts <;> cases ps <;>
    simp [mainActs, hob, allSt_append, run_append, run_retryActs, allSt_retryActs _ hp,
      deferActs, postActs, allSt, run_nil, run_cons, step, requestStop, init0,
      regUntilStoppedB, closeReturned, requestStopAll, snapOf]

/-- Claim C2, counterexample to the claim as stated: when the tenant server
signals its own shutdown (`shutdownRequested` branch, line 433), the control
loop reacts by calling `entry.state.requestStop()` (line 437) while still
running, so the stop-request channel fires; the propagate-close task then
takes its `stopRequestCh` branch and sends `true` into the graceful-drain
channel, and with the outer node healthy the propagate-close-tenant task
attempts the graceful drain — contradicting "shutdown triggered by the
tenant server's own shutdownRequested signal does not attempt a graceful
drain". -/
theorem self_shutdown_attempts_graceful_drain :
    anySt runningStopRequestedB init0
      (mainActs [AttemptResult.success] PostStart.shutdownReq) = true ∧
    drainAttempted CloseSource.stopRequest TenantCloseBranch.ctlQuiesce = true := by
  decide

/-- Claim C2 (amended): a graceful drain is attempted iff the stop-request
channel triggered the control-stopper quiesce (`propagate-close` fired on
`stopRequestCh`, which sends `true`) and the `propagate-close-tenant` task
observed the control-stopper quiesce rather than the outer node's quiesce;
shutdowns triggered by the outer node's quiesce or by spawn-context
cancellation never attempt a graceful drain, but the tenant server's own
`shutdownRequested` signal does lead to one, because the control loop routes
it through `requestStop` (line 437), closing the stop-request channel while
the server is still running. -/
theorem graceful_drain_policy (src : CloseSource) (branch : TenantCloseBranch)
    (attempts : List AttemptResult) :
    (drainAttempted src branch = true ↔
      src = CloseSource.stopRequest ∧ branch = TenantCloseBranch.ctlQuiesce) ∧
    (serverObtained attempts = true →
      anySt runningStopRequestedB init0 (mainActs attempts PostStart.shutdownReq) = true) := by
  constructor
  · cases src <;> cases branch <;>
      simp [drainAttempted, propagateClose, propagateCloseTenant]
  · intro hob
    have hp : ∀ (s : LState) (e : Option String),
        runningStopRequestedB { s with startErr := e } = runningStopRequestedB s :=
      fun _ _ => rfl
    simp [mainActs, hob, anySt_append, run_retryActs, anySt_retryActs _ hp,
      deferActs, postActs, anySt, run_nil, run_cons, step, requestStop, init0,
      runningStopRequestedB]

/-- Claim C2, witness: the drain-policy theorem instantiated at the
stop-request source with the ctl-quiesce branch, and at a one-attempt
successful start followed by a tenant-initiated shutdown. -/
theorem graceful_drain_policy_witness :
    drainAttempted CloseSource.stopRequest TenantCloseBranch.ctlQuiesce = true ∧
    anySt runningStopRequestedB init0
      (mainActs [AttemptResult.success] PostStart.shutdownReq) = true :=
  ⟨(graceful_drain_policy CloseSource.stopRequest TenantCloseBranch.ctlQuiesce []).1.mpr
      ⟨rfl, rfl⟩,
   (graceful_drain_policy CloseSource.stopRequest TenantCloseBranch.ctlQuiesce
      [AttemptResult.success]).2 rfl⟩

/-- The retry scenario underlying claim C3: the server-creation sequence
fails twice (with errors "e1" then "e2") and succeeds on the third
attempt. -/
def failTwiceThenOk : List AttemptResult :=
  [AttemptResult.fail "e1", AttemptResult.fail "e2", AttemptResult.success]

/-- Claim C3, evaluated at the failing input: on fail-fail-success the
control loop does reach the running state on the third attempt, and each
failure is transiently recorded as the latest `startErr` ("e1" then "e2"
while `startedOrStopped` is still open) — but `startErr` is never reset on
the success path (lines 404-426 assign only `entry.server`, `started` and
close the channel), so every state after `startedOrStopped` resolves still
carries `startErr = "e2"`: a waiter released by `startedOrStopped` (line
501 returns `entry.server, entry.state.startErr`) observes a non-nil
`startErr`, not the nil error the claim requires. -/
theorem retry_success_keeps_stale_startErr :
    serverObtained failTwiceThenOk = true ∧
    attemptsUsed failTwiceThenOk = 3 ∧
    anySt (fun s => s.started && s.sosClosed && s.serverSet) init0
      (mainActs failTwiceThenOk PostStart.tenantQuiesce) = true ∧
    anySt (fun s => !s.sosClosed && (s.startErr == some "e1")) init0
      (mainActs failTwiceThenOk PostStart.tenantQuiesce) = true ∧
    anySt (fun s => !s.sosClosed && (s.startErr == some "e2")) init0
      (mainActs failTwiceThenOk PostStart.tenantQuiesce) = true ∧
    allSt (fun s => !s.sosClosed || (s.startErr == some "e2")) init0
      (mainActs failTwiceThenOk PostStart.tenantQuiesce) = true := by
  decide

/-- Claim C5: for any n ≥ 1 sequential (equivalently, by linearizability of
the atomic swap, concurrent) invocations of `requestStop` on a fresh
trigger, the stop-request channel is closed exactly once — so exactly one
shutdown is triggered and no invocation performs a duplicate close (which
would panic in Go) — and every invocation after the first is a no-op. -/
theorem requestStop_idempotent (n : Nat) (h : 1 ≤ n) :
    Nat.iterate requestStop n { stoppedChClosed := false, closeCount := 0 }
      = { stoppedChClosed := true, closeCount := 1 } ∧
    ∀ t : StopTrigger, requestStop (requestStop t) = requestStop t := by
  have hfix : ∀ m : Nat,
      Nat.iterate requestStop m { stoppedChClosed := true, closeCount := 1 }
        = { stoppedChClosed := true, closeCount := 1 } := by
    intro m
    induction m with
    | zero => rfl
    | succ k ih => rw [Function.iterate_succ_apply, show
        requestStop { stoppedChClosed := true, closeCount := 1 }
          = { stoppedChClosed := true, closeCount := 1 } from rfl, ih]
  constructor
  · obtain ⟨m, rfl⟩ : ∃ m, n = m + 1 := ⟨n - 1, (Nat.succ_pred_eq_of_pos h).symm⟩
    rw [Function.iterate_succ_apply, show
      requestStop { stoppedChClosed := false, closeCount := 0 }
        = { stoppedChClosed := true, closeCount := 1 } from rfl, hfix]
  · intro t
    by_cases ht : t.stoppedChClosed = true <;> simp [requestStop, ht]

/-- Claim C5, witness: three invocations on a fresh trigger close the
channel exactly once. -/
theorem requestStop_idempotent_witness :
    Nat.iterate requestStop 3 { stoppedChClosed := false, closeCount := 0 }
      = { stoppedChClosed := true, closeCount := 1 } :=
  (requestStop_idempotent 3 (by decide)).1

/-- Claim C7: the wait of `startAndWaitForRunningServer` resolves on
whichever of the three signals fires first: on `startedOrStopped` it returns
the entry's server together with the entry's `startErr`, on the outer
stopper's quiesce a "server stopping" error, and on context cancellation the
context's error. -/
theorem startAndWait_select_cases (e : EntryView) (ctxErr : String) :
    startAndWaitForRunningServer e ctxErr WaitFirst.sosFired = (e.server, e.startErr) ∧
    startAndWaitForRunningServer e ctxErr WaitFirst.outerQuiesce
      = (none, some "server stopping") ∧
    startAndWaitForRunningServer e ctxErr WaitFirst.ctxDone = (none, some ctxErr) :=
  ⟨rfl, rfl, rfl⟩

/-- Claim C8: while the draining flag is set, `createServerEntryLocked`
fails immediately with the "server is draining" error, spawns no control
loop and leaves the registry map unchanged. -/
theorem createServerEntryLocked_draining (servers : List (String × StopTrigger))
    (name : String) :
    createServerEntryLocked true servers name
      = { err := some "server is draining", servers := servers, spawned := false } := by
  simp [createServerEntryLocked]

/-- `requestStop` always leaves the atomic bool set. -/
theorem requestStop_stoppedChClosed (t : StopTrigger) :
    (requestStop t).stoppedChClosed = true := by
  by_cases ht : t.stoppedChClosed = true <;> simp [requestStop, ht]

/-- Claim C9: `drain` requests stop on every entry of its snapshot (after
the pass, every snapshot entry's stop trigger is set) and its non-blocking
poll returns exactly the number of snapshot entries whose `stopped` channel
has not fired at the moment of the poll (`requestStop` never touches the
`stopped` channel, so the count over the post-stop-request snapshot equals
the count over the original snapshot). -/
theorem drain_counts_not_stopped (entries : List EntrySnap) :
    drain entries = entries.countP (fun e => !e.stoppedClosed) ∧
    (requestStopAll entries).all (fun e => e.trigger.stoppedChClosed) = true := by
  constructor
  · simp [drain, requestStopAll, List.countP_map]
    rfl
  · simp [requestStopAll, List.all_map, Function.comp_def, requestStop_stoppedChClosed]

/-- Lookup after the stop phase of the scan: every entry keeps its key;
entries whose name is in the desired set keep their trigger, the others have
`requestStop` applied. -/
theorem lookupT_scanStopPhase (req : List String) (m : List (String × StopTrigger))
    (n : String) :
    lookupT (scanStopPhase req m) n
      = (lookupT m n).map (fun t => if memN req n then t else requestStop t) := by
  induction m with
  | nil => rfl
  | cons kv rest ih =>
    obtain ⟨k, t⟩ := kv
    by_cases hk : n = k
    · subst hk; simp [scanStopPhase, lookupT]
    · simp [scanStopPhase, lookupT, hk, ih]

/-- A key found in the left part of an appended map is found unchanged in
the whole map. -/
theorem lookupT_append_some (m1 m2 : List (String × StopTrigger)) (n : String)
    (t : StopTrigger) (h : lookupT m1 n = some t) :
    lookupT (m1 ++ m2) n = some t := by
  induction m1 with
  | nil => simp [lookupT] at h
  | cons kv rest ih =>
    obtain ⟨k, v⟩ := kv
    by_cases hk : n = k
    · subst hk; simp [lookupT] at h ⊢; exact h
    · simp [lookupT, hk] at h ⊢; exact ih h

/-- A key absent from the left part of an appended map is looked up in the
right part. -/
theorem lookupT_append_none (m1 m2 : List (String × StopTrigger)) (n : String)
    (h : lookupT m1 n = none) :
    lookupT (m1 ++ m2) n = lookupT m2 n := by
  induction m1 with
  | nil => rfl
  | cons kv rest ih =>
    obtain ⟨k, v⟩ := kv
    by_cases hk : n = k
    · subst hk; simp [lookupT] at h
    · simp [lookupT, hk] at h ⊢; exact ih h

/-- The create phase of the scan, when the outer node is not draining:
returns no error, keeps every present entry unchanged, and adds a fresh
entry for exactly the desired names that were absent. -/
theorem scanCreatePhase_ok (req : List String) :
    ∀ (m : List (String × StopTrigger)) (n : String),
    (scanCreatePhase false req m).1 = none ∧
    lookupT (scanCreatePhase false req m).2 n
      = match lookupT m n with
        | some t => some t
        | none => if memN req n then some freshEntry else none := by
  induction req with
  | nil =>
    intro m n
    refine ⟨rfl, ?_⟩
    cases h : lookupT m n <;> simp [scanCreatePhase, memN, h]
  | cons r rest ih =>
    intro m n
    by_cases hr : (lookupT m r).isSome
    · have hstep : scanCreatePhase false (r :: rest) m = scanCreatePhase false rest m := by
        simp [scanCreatePhase, hr]
      refine ⟨hstep ▸ (ih m n).1, ?_⟩
      rw [hstep, (ih m n).2]
      cases h : lookupT m n with
      | some t => rfl
      | none =>
        have hnr : ¬n = r := by
          intro hh; subst hh; rw [h] at hr; simp at hr
        have : ¬r = n := fun hh => hnr hh.symm
        simp [memN, this]
    · have hstep : scanCreatePhase false (r :: rest) m
          = scanCreatePhase false rest (m ++ [(r, freshEntry)]) := by
        simp [scanCreatePhase, hr, createServerEntryLocked]
      refine ⟨hstep ▸ (ih (m ++ [(r, freshEntry)]) n).1, ?_⟩
      rw [hstep, (ih (m ++ [(r, freshEntry)]) n).2]
      cases h : lookupT m n with
      | some t => rw [lookupT_append_some _ _ _ _ h]
      | none =>
        rw [lookupT_append_none _ _ _ h]
        by_cases hnr : n = r
        · subst hnr; simp [lookupT, memN]
        · have : ¬r = n := fun hh => hnr hh.symm
          simp [lookupT, hnr, memN, this]

/-- Claim C4: one pass of `scanTenantsForRunnableServices` with desired set
D (`reqTenants`) and registered map R (`servers`), outer node not draining:
it succeeds, every registered name in D keeps its entry untouched, every
registered name not in D has `requestStop` applied to its entry, every name
of D absent from R gets a freshly created entry (with a spawned control
loop), and names in neither stay absent. -/
theorem scan_reconciles (reqTenants : List String)
    (servers : List (String × StopTrigger)) (n : String) :
    (scanTenantsForRunnableServices false reqTenants servers).1 = none ∧
    lookupT (scanTenantsForRunnableServices false reqTenants servers).2 n
      = match lookupT servers n with
        | some t => some (if memN reqTenants n then t else requestStop t)
        | none => if memN reqTenants n then some freshEntry else none := by
  unfold scanTenantsForRunnableServices
  refine ⟨(scanCreatePhase_ok reqTenants _ n).1, ?_⟩
  rw [(scanCreatePhase_ok reqTenants _ n).2, lookupT_scanStopPhase]
  cases h : lookupT servers n with
  | some t => simp
  | none => simp

end ServerCtl
